import Mathlib

/-!
Shallow embedding of the inventory-management core of
`gestion-stock-examen-python` (src/inventory/{repository,services}.py).

SQLite state is modelled as lists of rows; `REAL` money columns are
modelled as rationals (ℚ), Python's `round(x, 2)` as round-half-even at
two decimal places; operations return `Except Err α × DB` where the
returned state reflects SQLite commit/rollback semantics (a failing
statement rolls the whole transaction back, so errors return the input
state unchanged).
-/

/-- Error taxonomy from `exceptions.py` (referenced by the source but its
file only declares the classes; the distinctions used here all come from
`services.py` / `repository.py` raise sites). -/
inductive Err where
  | validation
  | notFound
  | stock
  | database
  deriving DecidableEq, Repr

deriving instance DecidableEq for Except

/-- Python's rounding of a number to the nearest integer, ties to even
(banker's rounding), used by `round`. -/
def roundHalfEven (q : ℚ) : ℤ :=
  if q - q.floor < 1/2 then q.floor
  else if 1/2 < q - q.floor then q.floor + 1
  else if q.floor % 2 = 0 then q.floor else q.floor + 1

/-- `round(x, 2)` from `services.py`: round to 2 decimal places, ties to even. -/
def round2 (x : ℚ) : ℚ := (roundHalfEven (x * 100) : ℚ) / 100

/-- The `Product` entity (`models.py` is absent from the sources; fields are
those used by `repository.py`/`services.py` and §3 of the spec: optional
database id, sku, name, category, unit price excl. tax, VAT rate, stock
quantity, creation timestamp). -/
structure Product where
  id : Option Nat := none
  sku : String
  name : String
  category : String
  unit_price_ht : ℚ
  vat_rate : ℚ
  quantity : ℤ
  created_at : String := ""
  deriving DecidableEq, Repr

/-- A row of the `products` table (schema `SCHEMA_SQL`). -/
structure ProductRow where
  id : Nat
  sku : String
  name : String
  category : String
  unit_price_ht : ℚ
  vat_rate : ℚ
  quantity : ℤ
  created_at : String
  deriving DecidableEq, Repr

/-- A row of the `sales` table (schema `SCHEMA_SQL`). -/
structure SaleRow where
  id : Nat
  product_id : Nat
  sku : String
  quantity : ℤ
  unit_price_ht : ℚ
  vat_rate : ℚ
  total_ht : ℚ
  total_vat : ℚ
  total_ttc : ℚ
  sold_at : String
  deriving DecidableEq, Repr

/-- The SQLite database state: both tables plus the AUTOINCREMENT counters. -/
structure DB where
  products : List ProductRow := []
  sales : List SaleRow := []
  nextProductId : Nat := 1
  nextSaleId : Nat := 1
  deriving DecidableEq, Repr

/-- The `CHECK` constraints of the `products` table on mutable columns:
`unit_price_ht >= 0`, `vat_rate` in `[0,1]`, `quantity >= 0`. -/
def productChecksOk (price vat : ℚ) (qty : ℤ) : Prop :=
  0 ≤ price ∧ 0 ≤ vat ∧ vat ≤ 1 ∧ 0 ≤ qty

instance (price vat : ℚ) (qty : ℤ) : Decidable (productChecksOk price vat qty) := by
  unfold productChecksOk; infer_instance

/-- Conversion of a fetched row to a `Product`, as in
`SQLiteRepository.get_product_by_sku` / `list_products`. -/
def rowToProduct (r : ProductRow) : Product :=
  { id := some r.id, sku := r.sku, name := r.name, category := r.category,
    unit_price_ht := r.unit_price_ht, vat_rate := r.vat_rate,
    quantity := r.quantity, created_at := r.created_at }

namespace SQLiteRepository

/-- `SQLiteRepository.insert_product`: INSERT of one product row.  A UNIQUE
violation on `sku` or any CHECK violation raises `sqlite3.IntegrityError`,
which the source rolls back and wraps as `DatabaseError`; success commits
the appended row (with `created_at` defaulted to `now` when falsy, per
`p.created_at or now_iso()`) and returns the generated id. -/
def insert_product (db : DB) (p : Product) (now : String) : Except Err Nat × DB :=
  if ∃ r ∈ db.products, r.sku = p.sku then (.error .database, db)
  else if ¬ productChecksOk p.unit_price_ht p.vat_rate p.quantity then (.error .database, db)
  else
    let row : ProductRow :=
      { id := db.nextProductId, sku := p.sku, name := p.name, category := p.category,
        unit_price_ht := p.unit_price_ht, vat_rate := p.vat_rate,
        quantity := p.quantity,
        created_at := if p.created_at = "" then now else p.created_at }
    (.ok db.nextProductId,
     { db with products := db.products ++ [row], nextProductId := db.nextProductId + 1 })

/-- `SQLiteRepository.get_product_by_sku`: `SELECT * FROM products WHERE
sku = ?`, first row or `None`. -/
def get_product_by_sku (db : DB) (sku : String) : Option Product :=
  (db.products.find? (fun r => r.sku == sku)).map rowToProduct

/-- `SQLiteRepository.update_product`: `UPDATE products SET name, category,
unit_price_ht, vat_rate, quantity WHERE sku = ?`.  Matching zero rows
succeeds; a CHECK violation on any updated row rolls back and raises
`DatabaseError`. -/
def update_product (db : DB) (p : Product) : Except Err Unit × DB :=
  if (∃ r ∈ db.products, r.sku = p.sku) ∧
      ¬ productChecksOk p.unit_price_ht p.vat_rate p.quantity then
    (.error .database, db)
  else
    (.ok (),
     { db with products := db.products.map (fun r =>
         if r.sku = p.sku then
           { r with name := p.name, category := p.category,
                    unit_price_ht := p.unit_price_ht, vat_rate := p.vat_rate,
                    quantity := p.quantity }
         else r) })

/-- `SQLiteRepository.delete_product`: `DELETE FROM products WHERE sku = ?`
under `FOREIGN KEY(product_id) REFERENCES products(id) ON DELETE RESTRICT`:
if any sale references a row being deleted the statement raises
`IntegrityError`, rolled back and wrapped as `DatabaseError`. -/
def delete_product (db : DB) (sku : String) : Except Err Unit × DB :=
  if ∃ s ∈ db.sales, ∃ r ∈ db.products, r.sku = sku ∧ s.product_id = r.id then
    (.error .database, db)
  else
    (.ok (), { db with products := db.products.filter (fun r => ¬ r.sku = sku) })

/-- `SQLiteRepository.record_sale`: one transaction that (1) blindly runs
`UPDATE products SET quantity = quantity - ? WHERE id = ?` (the
`CHECK(quantity >= 0)` aborts it when any updated row would go negative),
then (2) INSERTs the sale row (its CHECKs and the FK to `products(id)`
can also abort).  Any `sqlite3.Error` rolls the whole transaction back
and is wrapped as `DatabaseError`; otherwise both steps commit together. -/
def record_sale (db : DB) (product_id : Nat) (sku : String) (qty : ℤ)
    (price_ht vat_rate t_ht t_vat t_ttc : ℚ) (now : String) : Except Err Unit × DB :=
  if ∃ r ∈ db.products, r.id = product_id ∧ r.quantity - qty < 0 then
    (.error .database, db)
  else if ¬ (0 < qty ∧ 0 ≤ price_ht ∧ 0 ≤ vat_rate ∧ vat_rate ≤ 1 ∧
             0 ≤ t_ht ∧ 0 ≤ t_vat ∧ 0 ≤ t_ttc ∧
             ∃ r ∈ db.products, r.id = product_id) then
    (.error .database, db)
  else
    (.ok (),
     { db with
        products := db.products.map (fun r =>
          if r.id = product_id then { r with quantity := r.quantity - qty } else r),
        sales := db.sales ++
          [{ id := db.nextSaleId, product_id := product_id, sku := sku,
             quantity := qty, unit_price_ht := price_ht, vat_rate := vat_rate,
             total_ht := t_ht, total_vat := t_vat, total_ttc := t_ttc,
             sold_at := now }],
        nextSaleId := db.nextSaleId + 1 })

/-- The aggregate record returned by `get_sales_stats`. -/
structure Stats where
  nb_sales : Nat
  total_qty : ℤ
  total_ht : ℚ
  total_vat : ℚ
  total_ttc : ℚ
  deriving DecidableEq, Repr

/-- `SQLiteRepository.get_sales_stats`: `COUNT(*)` and `SUM`s over `sales`,
with the explicit all-zero dict when `nb_sales` is 0. -/
def get_sales_stats (db : DB) : Stats :=
  if db.sales.isEmpty then
    { nb_sales := 0, total_qty := 0, total_ht := 0, total_vat := 0, total_ttc := 0 }
  else
    { nb_sales := db.sales.length,
      total_qty := (db.sales.map (fun s => s.quantity)).sum,
      total_ht := (db.sales.map (fun s => s.total_ht)).sum,
      total_vat := (db.sales.map (fun s => s.total_vat)).sum,
      total_ttc := (db.sales.map (fun s => s.total_ttc)).sum }

end SQLiteRepository

/-- Modelled from the spec: `AppConfig` (`config.py` is not among the
sources); it supplies the `default_vat_rate` applied when callers omit VAT
on creation (§6 Configuration). -/
structure AppConfig where
  default_vat_rate : ℚ
  deriving DecidableEq, Repr

/-- Python's `str.strip()` on the underlying character list: drop
whitespace from both ends.  (A structural model of trimming, used by the
spec-modelled validators below.) -/
def pyStrip (s : String) : String :=
  ⟨((s.data.dropWhile Char.isWhitespace).reverse.dropWhile
      Char.isWhitespace).reverse⟩

/-- Modelled from the spec: `validate_sku` from `utils.py` (absent from the
sources) — returns the value normalized by trimming, fails with
ValidationError if empty after trimming (§4.2). -/
def validate_sku (s : String) : Except Err String :=
  if pyStrip s = "" then .error .validation else .ok (pyStrip s)

/-- Modelled from the spec: `validate_non_empty(s, field)` from `utils.py`
(absent from the sources) — trimmed value, fails with ValidationError if
empty after trimming (§4.2). -/
def validate_non_empty (s : String) (_field : String) : Except Err String :=
  if pyStrip s = "" then .error .validation else .ok (pyStrip s)

/-- Modelled from the spec: `validate_unit_price_ht` from `utils.py`
(absent from the sources) — fails with ValidationError if `x < 0` (§4.2). -/
def validate_unit_price_ht (x : ℚ) : Except Err ℚ :=
  if x < 0 then .error .validation else .ok x

/-- Modelled from the spec: `validate_quantity(n, allow_zero)` from
`utils.py` (absent from the sources) — fails with ValidationError if
`n < 0`, or `n ≤ 0` when `allow_zero` is false (§4.2). -/
def validate_quantity (n : ℤ) (allow_zero : Bool) : Except Err ℤ :=
  if n < 0 then .error .validation
  else if allow_zero = false ∧ n ≤ 0 then .error .validation
  else .ok n

/-- Modelled from the spec: `validate_vat_rate` from `utils.py` (absent
from the sources) — fails with ValidationError if `x < 0` or `x > 1`
(§4.2). -/
def validate_vat_rate (x : ℚ) : Except Err ℚ :=
  if x < 0 ∨ 1 < x then .error .validation else .ok x

/-- The receipt dict returned by `InventoryManager.sell_product`. -/
structure Receipt where
  sku : String
  qty : ℤ
  total_ht : ℚ
  total_vat : ℚ
  total_ttc : ℚ
  deriving DecidableEq, Repr

namespace InventoryManager

/-- `InventoryManager.add_product`: validates the sku, rejects an existing
sku with `ValidationError` before any insert, builds the `Product` with the
remaining validators (in the source's evaluation order: name, category,
price, quantity, vat — VAT defaulting to `config.default_vat_rate` when
omitted), inserts it and returns it. -/
def add_product (cfg : AppConfig) (db : DB) (sku name cat : String) (price : ℚ)
    (qty : ℤ) (vat : Option ℚ) (now : String) : Except Err Product × DB :=
  match validate_sku sku with
  | .error e => (.error e, db)
  | .ok sku1 =>
    if (SQLiteRepository.get_product_by_sku db sku1).isSome then
      (.error .validation, db)
    else
      match validate_non_empty name "nom", validate_non_empty cat "categorie",
            validate_unit_price_ht price, validate_quantity qty true,
            validate_vat_rate (vat.getD cfg.default_vat_rate) with
      | .ok n1, .ok c1, .ok pr1, .ok q1, .ok v1 =>
        let p : Product :=
          { sku := sku1, name := n1, category := c1, unit_price_ht := pr1,
            quantity := q1, vat_rate := v1, created_at := now }
        (match SQLiteRepository.insert_product db p now with
         | (.ok _, db1) => (.ok p, db1)
         | (.error e, db1) => (.error e, db1))
      | .error e, _, _, _, _ => (.error e, db)
      | _, .error e, _, _, _ => (.error e, db)
      | _, _, .error e, _, _ => (.error e, db)
      | _, _, _, .error e, _ => (.error e, db)
      | _, _, _, _, .error e => (.error e, db)

/-- `InventoryManager.update_product`: `NotFoundError` when the sku is
absent; otherwise validates the new fields and overwrites the mutable
columns through the repository, preserving `id` and `created_at`. -/
def update_product (db : DB) (sku name cat : String) (price : ℚ) (qty : ℤ)
    (vat : ℚ) : Except Err Unit × DB :=
  match SQLiteRepository.get_product_by_sku db sku with
  | none => (.error .notFound, db)
  | some p =>
    match validate_non_empty name "nom", validate_non_empty cat "categorie",
          validate_unit_price_ht price, validate_quantity qty true,
          validate_vat_rate vat with
    | .ok n1, .ok c1, .ok pr1, .ok q1, .ok v1 =>
      SQLiteRepository.update_product db
        { sku := sku, name := n1, category := c1, unit_price_ht := pr1,
          quantity := q1, vat_rate := v1, id := p.id, created_at := p.created_at }
    | .error e, _, _, _, _ => (.error e, db)
    | _, .error e, _, _, _ => (.error e, db)
    | _, _, .error e, _, _ => (.error e, db)
    | _, _, _, .error e, _ => (.error e, db)
    | _, _, _, _, .error e => (.error e, db)

/-- `InventoryManager.delete_product`: `NotFoundError` when the sku is
absent, otherwise delegates to the repository delete. -/
def delete_product (db : DB) (sku : String) : Except Err Unit × DB :=
  match SQLiteRepository.get_product_by_sku db sku with
  | none => (.error .notFound, db)
  | some _ => SQLiteRepository.delete_product db sku

/-- `InventoryManager.sell_product`: `NotFoundError` for an unknown sku,
`ValidationError` for `qty ≤ 0`, `StockError` when the available quantity
is insufficient; otherwise computes the three rounded totals and delegates
to the atomic `record_sale`, returning the receipt dict. -/
def sell_product (db : DB) (sku : String) (qty_to_sell : ℤ) (now : String) :
    Except Err Receipt × DB :=
  match SQLiteRepository.get_product_by_sku db sku with
  | none => (.error .notFound, db)
  | some p =>
    if qty_to_sell ≤ 0 then (.error .validation, db)
    else if p.quantity < qty_to_sell then (.error .stock, db)
    else
      let total_ht := round2 (p.unit_price_ht * (qty_to_sell : ℚ))
      let total_vat := round2 (total_ht * p.vat_rate)
      let total_ttc := round2 (total_ht + total_vat)
      match SQLiteRepository.record_sale db (p.id.getD 0) sku qty_to_sell
          p.unit_price_ht p.vat_rate total_ht total_vat total_ttc now with
      | (.ok _, db1) =>
        (.ok { sku := sku, qty := qty_to_sell, total_ht := total_ht,
               total_vat := total_vat, total_ttc := total_ttc }, db1)
      | (.error e, db1) => (.error e, db1)

/-- `InventoryManager.get_dashboard_data`: returns the repository's
aggregate stats unmodified. -/
def get_dashboard_data (db : DB) : SQLiteRepository.Stats :=
  SQLiteRepository.get_sales_stats db

end InventoryManager

/-! ### Database well-formedness

Facts guaranteed by the schema for any state SQLite can actually hold:
`sku` is UNIQUE, `id` is the primary key, and every row passed its CHECK
constraints. -/

/-- The per-row CHECK constraints of the `products` table. -/
def rowChecksOk (r : ProductRow) : Prop :=
  0 ≤ r.unit_price_ht ∧ 0 ≤ r.vat_rate ∧ r.vat_rate ≤ 1 ∧ 0 ≤ r.quantity

instance (r : ProductRow) : Decidable (rowChecksOk r) := by
  unfold rowChecksOk; infer_instance

/-- Schema-level invariant of a database state: distinct skus (UNIQUE),
distinct ids (PRIMARY KEY), and every product row satisfying its CHECKs. -/
def WF (db : DB) : Prop :=
  db.products.Pairwise (fun a b => a.sku ≠ b.sku) ∧
  db.products.Pairwise (fun a b => a.id ≠ b.id) ∧
  ∀ r ∈ db.products, rowChecksOk r

instance (db : DB) : Decidable (WF db) := by
  unfold WF; infer_instance

/-! ### Concrete states for evaluating the operations

The spec's worked example: product `SKU1`, price 10.00, VAT 0.20, stock 5. -/

/-- The stored row of the spec's worked example. -/
def exRow : ProductRow :=
  { id := 1, sku := "SKU1", name := "Widget", category := "Tools",
    unit_price_ht := 10, vat_rate := 1/5, quantity := 5, created_at := "D1" }

/-- A one-product database holding `exRow` and no sales. -/
def exDb : DB :=
  { products := [exRow], sales := [], nextProductId := 2, nextSaleId := 1 }

/-- The receipt the worked example expects: totals 30.00 / 6.00 / 36.00. -/
def exReceipt : Receipt :=
  { sku := "SKU1", qty := 3, total_ht := 30, total_vat := 6, total_ttc := 36 }

/-- `exRow` after three units were sold: stock 2. -/
def exRowAfter : ProductRow :=
  { id := 1, sku := "SKU1", name := "Widget", category := "Tools",
    unit_price_ht := 10, vat_rate := 1/5, quantity := 2, created_at := "D1" }

/-- The database after selling 3 units of `SKU1` from `exDb`: stock 2 and
one recorded sale. -/
def exDbAfter : DB :=
  { products := [exRowAfter],
    sales := [{ id := 1, product_id := 1, sku := "SKU1", quantity := 3,
                unit_price_ht := 10, vat_rate := 1/5, total_ht := 30,
                total_vat := 6, total_ttc := 36, sold_at := "T" }],
    nextProductId := 2, nextSaleId := 2 }

/-- A configuration with the spec's default VAT rate of 0.20. -/
def cfg0 : AppConfig := { default_vat_rate := 1/5 }

/-- A fresh valid product, sku `B2`, for the insert round-trip. -/
def pB2 : Product :=
  { id := none, sku := "B2", name := "Bolt", category := "Hw",
    unit_price_ht := 3, vat_rate := 1/10, quantity := 7, created_at := "D2" }

/-- A second product carrying the already-stored sku `SKU1`. -/
def pDup : Product :=
  { id := none, sku := "SKU1", name := "Clone", category := "Tools",
    unit_price_ht := 2, vat_rate := 0, quantity := 1, created_at := "D3" }

/-- On a list with pairwise-distinct skus, `find?` on a member's sku finds
exactly that member. -/
theorem find?_sku_of_mem {l : List ProductRow} {r : ProductRow}
    (hu : l.Pairwise (fun a b => a.sku ≠ b.sku)) (hr : r ∈ l) :
    l.find? (fun x => x.sku == r.sku) = some r := by
  induction l with
  | nil => cases hr
  | cons a t ih =>
    rcases List.mem_cons.1 hr with h | h
    · subst h
      exact List.find?_cons_of_pos _ (by simp)
    · have hne : a.sku ≠ r.sku := (List.pairwise_cons.1 hu).1 r h
      rw [List.find?_cons_of_neg _ (by simpa using hne)]
      exact ih (List.pairwise_cons.1 hu).2 h

/-- On a list with pairwise-distinct ids, two members with the same id are
the same row. -/
theorem eq_of_mem_of_id_eq {l : List ProductRow} {r x : ProductRow}
    (hu : l.Pairwise (fun a b => a.id ≠ b.id)) (hr : r ∈ l) (hx : x ∈ l)
    (h : x.id = r.id) : x = r := by
  induction l with
  | nil => cases hr
  | cons a t ih =>
    rcases List.mem_cons.1 hr with h1 | h1 <;> rcases List.mem_cons.1 hx with h2 | h2
    · rw [h1, h2]
    · subst h1; exact absurd h.symm ((List.pairwise_cons.1 hu).1 x h2)
    · subst h2; exact absurd h ((List.pairwise_cons.1 hu).1 r h1)
    · exact ih (List.pairwise_cons.1 hu).2 h1 h2

/-- Banker's rounding of a non-negative rational is non-negative. -/
theorem roundHalfEven_nonneg {q : ℚ} (h : 0 ≤ q) : 0 ≤ roundHalfEven q := by
  unfold roundHalfEven
  have hf : 0 ≤ q.floor := Rat.le_floor.2 (by exact_mod_cast h)
  split_ifs <;> omega

/-- `round(x, 2)` of a non-negative value is non-negative. -/
theorem round2_nonneg {x : ℚ} (h : 0 ≤ x) : 0 ≤ round2 x := by
  unfold round2
  have h1 : (0 : ℚ) ≤ (roundHalfEven (x * 100) : ℚ) := by
    exact_mod_cast roundHalfEven_nonneg (mul_nonneg h (by norm_num))
  exact div_nonneg h1 (by norm_num)

section ConcreteEvaluation

attribute [local semireducible] Rat.mul Rat.add Rat.sub Rat.inv

/-- A sanity check that the embedding evaluates: the spec's worked example,
price 10.00, VAT 0.20, `round2` at each step. -/
theorem round2_example : round2 ((10 : ℚ) * (3 : ℤ)) = 30 ∧
    round2 ((30 : ℚ) * (1/5)) = 6 ∧ round2 ((30 : ℚ) + 6) = 36 := by decide

end ConcreteEvaluation

/-! ### Claim theorems -/

/-- C2: `sell_product(sku, qty)` fails with NotFoundError when `sku` is
unknown, with ValidationError when `sku` exists and `qty ≤ 0`, and with
StockError when `sku` exists, `qty > 0` and `qty` exceeds the product's
current quantity; in each failure case the products and sales tables are
left unchanged (the returned state is the input state). -/
theorem sell_product_failure_cases (db : DB) (sku : String) (qty : ℤ)
    (now : String) (p : Product) :
    (SQLiteRepository.get_product_by_sku db sku = none →
      InventoryManager.sell_product db sku qty now = (.error .notFound, db)) ∧
    (SQLiteRepository.get_product_by_sku db sku = some p → qty ≤ 0 →
      InventoryManager.sell_product db sku qty now = (.error .validation, db)) ∧
    (SQLiteRepository.get_product_by_sku db sku = some p → 0 < qty →
      p.quantity < qty →
      InventoryManager.sell_product db sku qty now = (.error .stock, db)) := by
  refine ⟨fun h => ?_, fun h hq => ?_, fun h hq hlt => ?_⟩
  · unfold InventoryManager.sell_product
    rw [h]
  · unfold InventoryManager.sell_product
    rw [h]
    simp only [if_pos hq]
  · unfold InventoryManager.sell_product
    rw [h]
    simp only [if_neg (by omega : ¬ qty ≤ 0), if_pos hlt]

/-- C5: inserting a product whose `sku` is already stored fails with
DatabaseError, changes nothing, and the first product remains retrievable
by `get_product_by_sku`, unchanged. -/
theorem insert_product_duplicate_sku (db : DB) (p : Product) (now : String)
    (r : ProductRow) (hwf : WF db) (hr : r ∈ db.products) (hsku : r.sku = p.sku) :
    SQLiteRepository.insert_product db p now = (.error .database, db) ∧
    SQLiteRepository.get_product_by_sku
        (SQLiteRepository.insert_product db p now).2 p.sku =
      some (rowToProduct r) := by
  have hfail : SQLiteRepository.insert_product db p now = (.error .database, db) := by
    unfold SQLiteRepository.insert_product
    rw [if_pos ⟨r, hr, hsku⟩]
  refine ⟨hfail, ?_⟩
  rw [hfail]
  unfold SQLiteRepository.get_product_by_sku
  rw [← hsku, find?_sku_of_mem hwf.1 hr]
  rfl

/-- C9: `get_sales_stats` returns the sale count and the arithmetic sums of
`quantity`, `total_ht`, `total_vat`, `total_ttc` over all stored sale rows,
and on an empty sales table it returns exactly the all-zero aggregates. -/
theorem get_sales_stats_sums (db : DB) :
    SQLiteRepository.get_sales_stats db =
      { nb_sales := db.sales.length,
        total_qty := (db.sales.map (fun s => s.quantity)).sum,
        total_ht := (db.sales.map (fun s => s.total_ht)).sum,
        total_vat := (db.sales.map (fun s => s.total_vat)).sum,
        total_ttc := (db.sales.map (fun s => s.total_ttc)).sum } ∧
    (db.sales = [] →
      SQLiteRepository.get_sales_stats db =
        { nb_sales := 0, total_qty := 0, total_ht := 0, total_vat := 0,
          total_ttc := 0 }) := by
  constructor
  · unfold SQLiteRepository.get_sales_stats
    rcases h : db.sales with _ | ⟨a, t⟩
    · simp [h]
    · simp [h]
  · intro h
    unfold SQLiteRepository.get_sales_stats
    simp [h]

/-- `find?` over a list with no sku match followed by one appended row. -/
theorem find?_append_singleton {l : List ProductRow} {row : ProductRow}
    {s : String} (h : ∀ r ∈ l, r.sku ≠ s) :
    (l ++ [row]).find? (fun x => x.sku == s) =
      if row.sku = s then some row else none := by
  induction l with
  | nil =>
    simp only [List.nil_append]
    by_cases hs : row.sku = s
    · rw [List.find?_cons_of_pos _ (by simpa using hs), if_pos hs]
    · rw [List.find?_cons_of_neg _ (by simpa using hs), if_neg hs]
      rfl
  | cons a t ih =>
    rw [List.cons_append,
      List.find?_cons_of_neg _ (by simpa using h a (List.mem_cons_self a t))]
    exact ih (fun r hr => h r (List.mem_cons_of_mem a hr))

/-- Success equation of `insert_product`: with a fresh sku and CHECK-passing
fields the row is appended and the generated id returned. -/
theorem insert_product_ok (db : DB) (p : Product) (now : String)
    (hfresh : ∀ r ∈ db.products, r.sku ≠ p.sku)
    (hchecks : productChecksOk p.unit_price_ht p.vat_rate p.quantity) :
    SQLiteRepository.insert_product db p now =
      (.ok db.nextProductId,
       { db with
          products := db.products ++
            [{ id := db.nextProductId, sku := p.sku, name := p.name,
               category := p.category, unit_price_ht := p.unit_price_ht,
               vat_rate := p.vat_rate, quantity := p.quantity,
               created_at := if p.created_at = "" then now else p.created_at }],
          nextProductId := db.nextProductId + 1 }) := by
  have hnotdup : ¬ ∃ r ∈ db.products, r.sku = p.sku := by
    rintro ⟨r, hr, hs⟩; exact hfresh r hr hs
  unfold SQLiteRepository.insert_product
  rw [if_neg hnotdup, if_neg (not_not_intro hchecks)]

/-- `get_product_by_sku` returns `none` exactly when no stored row carries
the sku. -/
theorem get_none_iff (db : DB) (s : String) :
    SQLiteRepository.get_product_by_sku db s = none ↔
      ∀ r ∈ db.products, r.sku ≠ s := by
  unfold SQLiteRepository.get_product_by_sku
  constructor
  · intro h r hr hs
    rcases Option.map_eq_none'.1 h with hnone
    have := List.find?_eq_none.1 hnone r hr
    simp [hs] at this
  · intro h
    rw [List.find?_eq_none.2 (fun x hx => by simpa using h x hx)]
    rfl

/-- C4: for a product with valid fields (passing the table's CHECKs, with a
set `created_at`) whose sku is not yet stored, `insert_product` succeeds
with the generated id and `get_product_by_sku` then returns a product with
exactly the inserted sku, name, category, unit_price_ht, vat_rate,
quantity and created_at (round-trip). -/
theorem insert_then_get_roundtrip (db : DB) (p : Product) (now : String)
    (hfresh : ∀ r ∈ db.products, r.sku ≠ p.sku)
    (hchecks : productChecksOk p.unit_price_ht p.vat_rate p.quantity)
    (hcreated : p.created_at ≠ "") :
    (SQLiteRepository.insert_product db p now).1 = .ok db.nextProductId ∧
    SQLiteRepository.get_product_by_sku
        (SQLiteRepository.insert_product db p now).2 p.sku =
      some { id := some db.nextProductId, sku := p.sku, name := p.name,
             category := p.category, unit_price_ht := p.unit_price_ht,
             vat_rate := p.vat_rate, quantity := p.quantity,
             created_at := p.created_at } := by
  rw [insert_product_ok db p now hfresh hchecks]
  refine ⟨rfl, ?_⟩
  unfold SQLiteRepository.get_product_by_sku
  simp only [find?_append_singleton hfresh, if_pos rfl, Option.map_some,
    rowToProduct]
  simp [hcreated]
  rfl

/-- C6: `add_product` rejects a sku that already exists with
ValidationError before attempting any insert (for any `vat` argument,
valid or not, and with storage unchanged); when `vat` is omitted a
successful add stores and returns the configured `default_vat_rate`. -/
theorem add_product_duplicate_and_default_vat (cfg : AppConfig) (db : DB)
    (sku name cat : String) (price : ℚ) (qty : ℤ) (now : String) :
    ((pyStrip sku) ≠ "" → (SQLiteRepository.get_product_by_sku db (pyStrip sku)).isSome →
      ∀ vat : Option ℚ,
      InventoryManager.add_product cfg db sku name cat price qty vat now =
        (.error .validation, db)) ∧
    ((pyStrip sku) ≠ "" → SQLiteRepository.get_product_by_sku db (pyStrip sku) = none →
      (pyStrip name) ≠ "" → (pyStrip cat) ≠ "" → 0 ≤ price → 0 ≤ qty →
      0 ≤ cfg.default_vat_rate → cfg.default_vat_rate ≤ 1 →
      InventoryManager.add_product cfg db sku name cat price qty none now =
        (.ok { sku := (pyStrip sku), name := (pyStrip name), category := (pyStrip cat),
               unit_price_ht := price, vat_rate := cfg.default_vat_rate,
               quantity := qty, created_at := now },
         { db with
            products := db.products ++
              [{ id := db.nextProductId, sku := (pyStrip sku), name := (pyStrip name),
                 category := (pyStrip cat), unit_price_ht := price,
                 vat_rate := cfg.default_vat_rate, quantity := qty,
                 created_at := now }],
            nextProductId := db.nextProductId + 1 })) := by
  constructor
  · intro hsku hsome vat
    unfold InventoryManager.add_product validate_sku
    rw [if_neg hsku]
    simp [hsome]
  · intro hsku hget hname hcat hprice hqty hv0 hv1
    have v1 : validate_non_empty name "nom" = .ok (pyStrip name) := by
      unfold validate_non_empty; rw [if_neg hname]
    have v2 : validate_non_empty cat "categorie" = .ok (pyStrip cat) := by
      unfold validate_non_empty; rw [if_neg hcat]
    have v3 : validate_unit_price_ht price = .ok price := by
      unfold validate_unit_price_ht; rw [if_neg (not_lt.2 hprice)]
    have v4 : validate_quantity qty true = .ok qty := by
      unfold validate_quantity
      rw [if_neg (not_lt.2 hqty)]
      simp
    have v5 : validate_vat_rate ((none : Option ℚ).getD cfg.default_vat_rate) =
        .ok cfg.default_vat_rate := by
      unfold validate_vat_rate
      simp only [Option.getD_none]
      rw [if_neg (by push_neg; exact ⟨hv0, hv1⟩)]
    have hfresh : ∀ r ∈ db.products, r.sku ≠ (pyStrip sku) := (get_none_iff db (pyStrip sku)).1 hget
    unfold InventoryManager.add_product validate_sku
    rw [if_neg hsku]
    simp only [hget, Option.isSome_none, Bool.false_eq_true, if_false, v1, v2, v3, v4, v5]
    rw [insert_product_ok db
      { sku := (pyStrip sku), name := (pyStrip name), category := (pyStrip cat),
        unit_price_ht := price, vat_rate := cfg.default_vat_rate,
        quantity := qty, created_at := now } now hfresh ⟨hprice, hv0, hv1, hqty⟩]
    simp

/-- C7: `update_product` fails with NotFoundError leaving storage unchanged
when the sku is absent; when it exists (and the new fields validate) it
overwrites name, category, unit_price_ht, vat_rate and quantity of every
row matching the sku, preserving that row's id, created_at and sku, and
leaves every other row unchanged (also as an explicit membership fact). -/
theorem update_product_notfound_and_overwrite (db : DB) (sku name cat : String)
    (price : ℚ) (qty : ℤ) (vat : ℚ) (p : Product) :
    (SQLiteRepository.get_product_by_sku db sku = none →
      InventoryManager.update_product db sku name cat price qty vat =
        (.error .notFound, db)) ∧
    (SQLiteRepository.get_product_by_sku db sku = some p →
      (pyStrip name) ≠ "" → (pyStrip cat) ≠ "" → 0 ≤ price → 0 ≤ qty → 0 ≤ vat → vat ≤ 1 →
      InventoryManager.update_product db sku name cat price qty vat =
        (.ok (), { db with
          products := db.products.map (fun r =>
            if r.sku = sku then
              { r with name := (pyStrip name), category := (pyStrip cat),
                       unit_price_ht := price, vat_rate := vat, quantity := qty }
            else r) }) ∧
      ∀ r ∈ db.products, r.sku ≠ sku →
        r ∈ (InventoryManager.update_product db sku name cat price qty vat).2.products) := by
  constructor
  · intro h
    unfold InventoryManager.update_product
    rw [h]
  · intro hget hname hcat hprice hqty hv0 hv1
    have v1 : validate_non_empty name "nom" = .ok (pyStrip name) := by
      unfold validate_non_empty; rw [if_neg hname]
    have v2 : validate_non_empty cat "categorie" = .ok (pyStrip cat) := by
      unfold validate_non_empty; rw [if_neg hcat]
    have v3 : validate_unit_price_ht price = .ok price := by
      unfold validate_unit_price_ht; rw [if_neg (not_lt.2 hprice)]
    have v4 : validate_quantity qty true = .ok qty := by
      unfold validate_quantity
      rw [if_neg (not_lt.2 hqty)]
      simp
    have v5 : validate_vat_rate vat = .ok vat := by
      unfold validate_vat_rate
      rw [if_neg (by push_neg; exact ⟨hv0, hv1⟩)]
    have heq : InventoryManager.update_product db sku name cat price qty vat =
        (.ok (), { db with
          products := db.products.map (fun r =>
            if r.sku = sku then
              { r with name := (pyStrip name), category := (pyStrip cat),
                       unit_price_ht := price, vat_rate := vat, quantity := qty }
            else r) }) := by
      unfold InventoryManager.update_product
      rw [hget]
      simp only [v1, v2, v3, v4, v5]
      unfold SQLiteRepository.update_product
      rw [if_neg (fun h => h.2 ⟨hprice, hv0, hv1, hqty⟩)]
    refine ⟨heq, fun r hr hne => ?_⟩
    rw [heq]
    exact List.mem_map.2 ⟨r, hr, by rw [if_neg hne]⟩

/-- C8: `delete_product` fails with NotFoundError when the sku is absent;
when the product exists and some sale references a product row carrying
that sku it fails with DatabaseError and both tables are unchanged; when
it exists and no sale references it, exactly the rows carrying the sku are
removed. -/
theorem delete_product_cases (db : DB) (sku : String) (p : Product) :
    (SQLiteRepository.get_product_by_sku db sku = none →
      InventoryManager.delete_product db sku = (.error .notFound, db)) ∧
    (SQLiteRepository.get_product_by_sku db sku = some p →
      (∃ s ∈ db.sales, ∃ r ∈ db.products, r.sku = sku ∧ s.product_id = r.id) →
      InventoryManager.delete_product db sku = (.error .database, db)) ∧
    (SQLiteRepository.get_product_by_sku db sku = some p →
      (∀ s ∈ db.sales, ∀ r ∈ db.products, r.sku = sku → s.product_id ≠ r.id) →
      InventoryManager.delete_product db sku =
        (.ok (), { db with
          products := db.products.filter (fun r => ¬ r.sku = sku) })) := by
  refine ⟨fun h => ?_, fun hget hex => ?_, fun hget hnone => ?_⟩
  · unfold InventoryManager.delete_product
    rw [h]
  · unfold InventoryManager.delete_product
    rw [hget]
    unfold SQLiteRepository.delete_product
    rw [if_pos hex]
  · unfold InventoryManager.delete_product
    rw [hget]
    unfold SQLiteRepository.delete_product
    rw [if_neg (by rintro ⟨s, hs, r, hr, hsku, hid⟩; exact hnone s hs r hr hsku hid)]

/-- Success equation of the atomic sale transaction: when no updated row
would violate `CHECK(quantity >= 0)` and the sale row passes its own
constraints, the stock decrement and the sale insert commit together. -/
theorem record_sale_ok (db : DB) (pid : Nat) (sku : String) (qty : ℤ)
    (price vat tht tvat tttc : ℚ) (now : String)
    (h1 : ¬ ∃ r ∈ db.products, r.id = pid ∧ r.quantity - qty < 0)
    (h2 : 0 < qty) (h3 : 0 ≤ price) (h4 : 0 ≤ vat) (h5 : vat ≤ 1)
    (h6 : 0 ≤ tht) (h7 : 0 ≤ tvat) (h8 : 0 ≤ tttc)
    (h9 : ∃ r ∈ db.products, r.id = pid) :
    SQLiteRepository.record_sale db pid sku qty price vat tht tvat tttc now =
      (.ok (),
       { db with
          products := db.products.map (fun r =>
            if r.id = pid then { r with quantity := r.quantity - qty } else r),
          sales := db.sales ++
            [{ id := db.nextSaleId, product_id := pid, sku := sku,
               quantity := qty, unit_price_ht := price, vat_rate := vat,
               total_ht := tht, total_vat := tvat, total_ttc := tttc,
               sold_at := now }],
          nextSaleId := db.nextSaleId + 1 }) := by
  unfold SQLiteRepository.record_sale
  rw [if_neg h1, if_neg (not_not_intro ⟨h2, h3, h4, h5, h6, h7, h8, h9⟩)]

/-- C1: for a stored product row and `0 < qty ≤ stock`, `sell_product` on
its sku succeeds: the row's quantity is decremented by exactly `qty`,
exactly one sale row is appended whose sku, quantity, unit_price_ht and
vat_rate snapshot the product's values at the time of sale, and every
other product row is unchanged (in particular it is still stored). -/
theorem sell_product_success (db : DB) (r : ProductRow) (qty : ℤ)
    (now : String) (hwf : WF db) (hr : r ∈ db.products) (h0 : 0 < qty)
    (hle : qty ≤ r.quantity) :
    InventoryManager.sell_product db r.sku qty now =
      (.ok { sku := r.sku, qty := qty,
             total_ht := round2 (r.unit_price_ht * (qty : ℚ)),
             total_vat := round2 (round2 (r.unit_price_ht * (qty : ℚ)) * r.vat_rate),
             total_ttc := round2 (round2 (r.unit_price_ht * (qty : ℚ)) +
               round2 (round2 (r.unit_price_ht * (qty : ℚ)) * r.vat_rate)) },
       { db with
          products := db.products.map (fun x =>
            if x.id = r.id then { x with quantity := x.quantity - qty } else x),
          sales := db.sales ++
            [{ id := db.nextSaleId, product_id := r.id, sku := r.sku,
               quantity := qty, unit_price_ht := r.unit_price_ht,
               vat_rate := r.vat_rate,
               total_ht := round2 (r.unit_price_ht * (qty : ℚ)),
               total_vat := round2 (round2 (r.unit_price_ht * (qty : ℚ)) * r.vat_rate),
               total_ttc := round2 (round2 (r.unit_price_ht * (qty : ℚ)) +
                 round2 (round2 (r.unit_price_ht * (qty : ℚ)) * r.vat_rate)),
               sold_at := now }],
          nextSaleId := db.nextSaleId + 1 }) ∧
    ∀ x ∈ db.products, x.id ≠ r.id →
      x ∈ (InventoryManager.sell_product db r.sku qty now).2.products := by
  have hget : SQLiteRepository.get_product_by_sku db r.sku = some (rowToProduct r) := by
    unfold SQLiteRepository.get_product_by_sku
    rw [find?_sku_of_mem hwf.1 hr]
    rfl
  have hchecks := hwf.2.2 r hr
  have hqc : (0 : ℚ) ≤ (qty : ℚ) := by exact_mod_cast le_of_lt h0
  have h6 : 0 ≤ round2 (r.unit_price_ht * (qty : ℚ)) :=
    round2_nonneg (mul_nonneg hchecks.1 hqc)
  have h7 : 0 ≤ round2 (round2 (r.unit_price_ht * (qty : ℚ)) * r.vat_rate) :=
    round2_nonneg (mul_nonneg h6 hchecks.2.1)
  have h8 : 0 ≤ round2 (round2 (r.unit_price_ht * (qty : ℚ)) +
      round2 (round2 (r.unit_price_ht * (qty : ℚ)) * r.vat_rate)) :=
    round2_nonneg (add_nonneg h6 h7)
  have h1 : ¬ ∃ x ∈ db.products, x.id = r.id ∧ x.quantity - qty < 0 := by
    rintro ⟨x, hx, hid, hneg⟩
    rw [eq_of_mem_of_id_eq hwf.2.1 hr hx hid] at hneg
    omega
  have hrec := record_sale_ok db r.id r.sku qty r.unit_price_ht r.vat_rate
    (round2 (r.unit_price_ht * (qty : ℚ)))
    (round2 (round2 (r.unit_price_ht * (qty : ℚ)) * r.vat_rate))
    (round2 (round2 (r.unit_price_ht * (qty : ℚ)) +
      round2 (round2 (r.unit_price_ht * (qty : ℚ)) * r.vat_rate))) now
    h1 h0 hchecks.1 hchecks.2.1 hchecks.2.2.1 h6 h7 h8 ⟨r, hr, rfl⟩
  have hsell : InventoryManager.sell_product db r.sku qty now =
      (.ok { sku := r.sku, qty := qty,
             total_ht := round2 (r.unit_price_ht * (qty : ℚ)),
             total_vat := round2 (round2 (r.unit_price_ht * (qty : ℚ)) * r.vat_rate),
             total_ttc := round2 (round2 (r.unit_price_ht * (qty : ℚ)) +
               round2 (round2 (r.unit_price_ht * (qty : ℚ)) * r.vat_rate)) },
       { db with
          products := db.products.map (fun x =>
            if x.id = r.id then { x with quantity := x.quantity - qty } else x),
          sales := db.sales ++
            [{ id := db.nextSaleId, product_id := r.id, sku := r.sku,
               quantity := qty, unit_price_ht := r.unit_price_ht,
               vat_rate := r.vat_rate,
               total_ht := round2 (r.unit_price_ht * (qty : ℚ)),
               total_vat := round2 (round2 (r.unit_price_ht * (qty : ℚ)) * r.vat_rate),
               total_ttc := round2 (round2 (r.unit_price_ht * (qty : ℚ)) +
                 round2 (round2 (r.unit_price_ht * (qty : ℚ)) * r.vat_rate)),
               sold_at := now }],
          nextSaleId := db.nextSaleId + 1 }) := by
    unfold InventoryManager.sell_product
    rw [hget]
    simp only [rowToProduct, if_neg (by omega : ¬ qty ≤ 0),
      if_neg (not_lt.2 hle), Option.getD_some, hrec]
  refine ⟨hsell, fun x hx hne => ?_⟩
  rw [hsell]
  exact List.mem_map.2 ⟨x, hx, by rw [if_neg hne]⟩

/-- Destructor for a successful `record_sale`: the committed state appended
exactly the one sale row built from the arguments. -/
theorem record_sale_ok_sales {db : DB} {pid : Nat} {sku : String} {qty : ℤ}
    {price vat tht tvat tttc : ℚ} {now : String} {u : Unit} {db1 : DB}
    (h : SQLiteRepository.record_sale db pid sku qty price vat tht tvat tttc now =
      (.ok u, db1)) :
    db1.sales = db.sales ++
      [{ id := db.nextSaleId, product_id := pid, sku := sku, quantity := qty,
         unit_price_ht := price, vat_rate := vat, total_ht := tht,
         total_vat := tvat, total_ttc := tttc, sold_at := now }] := by
  unfold SQLiteRepository.record_sale at h
  split_ifs at h with h1 h2
  · simp at h
  · simp only [Prod.mk.injEq] at h
    rw [← h.2]
  · simp at h

/-- C3: a successful `sell_product` returns the receipt
`{sku, qty, total_ht, total_vat, total_ttc}` with
`total_ht = round2(price*qty)`, `total_vat = round2(total_ht*vat)` and
`total_ttc = round2(total_ht+total_vat)` — rounding applied at each
monetary step — and the very same three totals are the ones stored in the
appended sale row. -/
theorem sell_product_receipt (db : DB) (sku : String) (qty : ℤ) (now : String)
    (p : Product) (rc : Receipt) (db1 : DB)
    (hget : SQLiteRepository.get_product_by_sku db sku = some p)
    (hok : InventoryManager.sell_product db sku qty now = (.ok rc, db1)) :
    rc.sku = sku ∧ rc.qty = qty ∧
    rc.total_ht = round2 (p.unit_price_ht * (qty : ℚ)) ∧
    rc.total_vat = round2 (rc.total_ht * p.vat_rate) ∧
    rc.total_ttc = round2 (rc.total_ht + rc.total_vat) ∧
    db1.sales = db.sales ++
      [{ id := db.nextSaleId, product_id := p.id.getD 0, sku := sku,
         quantity := qty, unit_price_ht := p.unit_price_ht,
         vat_rate := p.vat_rate, total_ht := rc.total_ht,
         total_vat := rc.total_vat, total_ttc := rc.total_ttc,
         sold_at := now }] := by
  have hq : ¬ qty ≤ 0 := by
    intro hq
    have hfail : InventoryManager.sell_product db sku qty now = (.error .validation, db) := by
      unfold InventoryManager.sell_product
      rw [hget]
      simp only [if_pos hq]
    rw [hfail] at hok
    simp at hok
  have hlt : ¬ p.quantity < qty := by
    intro hlt
    have hfail : InventoryManager.sell_product db sku qty now = (.error .stock, db) := by
      unfold InventoryManager.sell_product
      rw [hget]
      simp only [if_neg hq, if_pos hlt]
    rw [hfail] at hok
    simp at hok
  have hsell : InventoryManager.sell_product db sku qty now =
      (match SQLiteRepository.record_sale db (p.id.getD 0) sku qty
          p.unit_price_ht p.vat_rate
          (round2 (p.unit_price_ht * (qty : ℚ)))
          (round2 (round2 (p.unit_price_ht * (qty : ℚ)) * p.vat_rate))
          (round2 (round2 (p.unit_price_ht * (qty : ℚ)) +
            round2 (round2 (p.unit_price_ht * (qty : ℚ)) * p.vat_rate))) now with
       | (.ok _, db2) =>
         (.ok { sku := sku, qty := qty,
                total_ht := round2 (p.unit_price_ht * (qty : ℚ)),
                total_vat := round2 (round2 (p.unit_price_ht * (qty : ℚ)) * p.vat_rate),
                total_ttc := round2 (round2 (p.unit_price_ht * (qty : ℚ)) +
                  round2 (round2 (p.unit_price_ht * (qty : ℚ)) * p.vat_rate)) }, db2)
       | (.error e, db2) => (.error e, db2)) := by
    unfold InventoryManager.sell_product
    rw [hget]
    simp only [if_neg hq, if_neg hlt]
  rw [hsell] at hok
  rcases hrec : SQLiteRepository.record_sale db (p.id.getD 0) sku qty
      p.unit_price_ht p.vat_rate
      (round2 (p.unit_price_ht * (qty : ℚ)))
      (round2 (round2 (p.unit_price_ht * (qty : ℚ)) * p.vat_rate))
      (round2 (round2 (p.unit_price_ht * (qty : ℚ)) +
        round2 (round2 (p.unit_price_ht * (qty : ℚ)) * p.vat_rate))) now with
    ⟨res, dbr⟩
  rw [hrec] at hok
  cases res with
  | error e => simp at hok
  | ok u =>
    simp only [] at hok
    injection hok with hok1 hok2
    injection hok1 with hok1
    subst hok2
    subst hok1
    refine ⟨rfl, rfl, rfl, rfl, rfl, ?_⟩
    exact record_sale_ok_sales hrec

/-- `record_sale` preserves non-negativity of every stored quantity: the
`CHECK(quantity >= 0)` aborts any transaction that would decrement a row
below zero, and committed states only hold checked rows. -/
theorem record_sale_preserves_qty_nonneg (db : DB) (pid : Nat) (sku : String)
    (qty : ℤ) (price vat tht tvat tttc : ℚ) (now : String)
    (hinv : ∀ x ∈ db.products, 0 ≤ x.quantity) :
    ∀ x ∈ (SQLiteRepository.record_sale db pid sku qty price vat tht tvat
      tttc now).2.products, 0 ≤ x.quantity := by
  unfold SQLiteRepository.record_sale
  split_ifs with h1 h2
  · exact hinv
  · intro x hx
    rcases List.mem_map.1 hx with ⟨y, hy, rfl⟩
    by_cases hid : y.id = pid
    · rw [if_pos hid]
      have : ¬ y.quantity - qty < 0 := fun hneg => h1 ⟨y, hy, hid, hneg⟩
      show 0 ≤ y.quantity - qty
      omega
    · rw [if_neg hid]
      exact hinv y hy
  · exact hinv

/-- C10: the blind decrement of `record_sale` can never make a stored
quantity negative: called directly with `qty` exceeding the matched row's
quantity it aborts with DatabaseError leaving both tables unchanged; and
every mutating repository operation — `record_sale`, `insert_product`,
`update_product`, `delete_product` — as well as `sell_product` preserves
`quantity ≥ 0` for every stored product row. -/
theorem record_sale_abort_and_qty_invariant (db : DB) (pid : Nat)
    (sku : String) (qty : ℤ) (price vat tht tvat tttc : ℚ) (now : String)
    (p : Product) (r : ProductRow) :
    (r ∈ db.products → r.id = pid → r.quantity < qty →
      SQLiteRepository.record_sale db pid sku qty price vat tht tvat tttc now =
        (.error .database, db)) ∧
    ((∀ x ∈ db.products, 0 ≤ x.quantity) →
      (∀ x ∈ (SQLiteRepository.record_sale db pid sku qty price vat tht tvat
        tttc now).2.products, 0 ≤ x.quantity) ∧
      (∀ x ∈ (SQLiteRepository.insert_product db p now).2.products, 0 ≤ x.quantity) ∧
      (∀ x ∈ (SQLiteRepository.update_product db p).2.products, 0 ≤ x.quantity) ∧
      (∀ x ∈ (SQLiteRepository.delete_product db sku).2.products, 0 ≤ x.quantity) ∧
      (∀ x ∈ (InventoryManager.sell_product db sku qty now).2.products, 0 ≤ x.quantity)) := by
  constructor
  · intro hr hid hlt
    unfold SQLiteRepository.record_sale
    rw [if_pos ⟨r, hr, hid, by omega⟩]
  · intro hinv
    refine ⟨record_sale_preserves_qty_nonneg db pid sku qty price vat tht tvat
      tttc now hinv, ?_, ?_, ?_, ?_⟩
    · by_cases h1 : ∃ r ∈ db.products, r.sku = p.sku
      · unfold SQLiteRepository.insert_product
        rw [if_pos h1]
        exact hinv
      · by_cases h2 : productChecksOk p.unit_price_ht p.vat_rate p.quantity
        · rw [insert_product_ok db p now (fun r hr hs => h1 ⟨r, hr, hs⟩) h2]
          intro x hx
          rcases List.mem_append.1 hx with hx | hx
          · exact hinv x hx
          · rcases List.mem_singleton.1 hx with rfl
            exact h2.2.2.2
        · unfold SQLiteRepository.insert_product
          rw [if_neg h1, if_pos h2]
          exact hinv
    · unfold SQLiteRepository.update_product
      split_ifs with h1
      · exact hinv
      · intro x hx
        rcases List.mem_map.1 hx with ⟨y, hy, rfl⟩
        by_cases hsk : y.sku = p.sku
        · rw [if_pos hsk]
          by_cases hck : productChecksOk p.unit_price_ht p.vat_rate p.quantity
          · exact hck.2.2.2
          · exact absurd ⟨⟨y, hy, hsk⟩, hck⟩ h1
        · rw [if_neg hsk]
          exact hinv y hy
    · unfold SQLiteRepository.delete_product
      split_ifs with h1
      · exact hinv
      · intro x hx
        exact hinv x (List.mem_of_mem_filter hx)
    · rcases hget : SQLiteRepository.get_product_by_sku db sku with _ | q
      · have h : InventoryManager.sell_product db sku qty now = (.error .notFound, db) := by
          unfold InventoryManager.sell_product
          rw [hget]
        rw [h]
        exact hinv
      · by_cases hq : qty ≤ 0
        · have h : InventoryManager.sell_product db sku qty now = (.error .validation, db) := by
            unfold InventoryManager.sell_product
            rw [hget]
            simp only [if_pos hq]
          rw [h]
          exact hinv
        · by_cases hlt : q.quantity < qty
          · have h : InventoryManager.sell_product db sku qty now = (.error .stock, db) := by
              unfold InventoryManager.sell_product
              rw [hget]
              simp only [if_neg hq, if_pos hlt]
            rw [h]
            exact hinv
          · have h : InventoryManager.sell_product db sku qty now =
                (match SQLiteRepository.record_sale db (q.id.getD 0) sku qty
                    q.unit_price_ht q.vat_rate
                    (round2 (q.unit_price_ht * (qty : ℚ)))
                    (round2 (round2 (q.unit_price_ht * (qty : ℚ)) * q.vat_rate))
                    (round2 (round2 (q.unit_price_ht * (qty : ℚ)) +
                      round2 (round2 (q.unit_price_ht * (qty : ℚ)) * q.vat_rate))) now with
                 | (.ok _, db2) =>
                   (.ok { sku := sku, qty := qty,
                          total_ht := round2 (q.unit_price_ht * (qty : ℚ)),
                          total_vat := round2 (round2 (q.unit_price_ht * (qty : ℚ)) * q.vat_rate),
                          total_ttc := round2 (round2 (q.unit_price_ht * (qty : ℚ)) +
                            round2 (round2 (q.unit_price_ht * (qty : ℚ)) * q.vat_rate)) }, db2)
                 | (.error e, db2) => (.error e, db2)) := by
              unfold InventoryManager.sell_product
              rw [hget]
              simp only [if_neg hq, if_neg hlt]
            rw [h]
            rcases hrec : SQLiteRepository.record_sale db (q.id.getD 0) sku qty
                q.unit_price_ht q.vat_rate
                (round2 (q.unit_price_ht * (qty : ℚ)))
                (round2 (round2 (q.unit_price_ht * (qty : ℚ)) * q.vat_rate))
                (round2 (round2 (q.unit_price_ht * (qty : ℚ)) +
                  round2 (round2 (q.unit_price_ht * (qty : ℚ)) * q.vat_rate))) now with
              ⟨res, dbr⟩
            have hpres := record_sale_preserves_qty_nonneg db (q.id.getD 0) sku qty
              q.unit_price_ht q.vat_rate
              (round2 (q.unit_price_ht * (qty : ℚ)))
              (round2 (round2 (q.unit_price_ht * (qty : ℚ)) * q.vat_rate))
              (round2 (round2 (q.unit_price_ht * (qty : ℚ)) +
                round2 (round2 (q.unit_price_ht * (qty : ℚ)) * q.vat_rate))) now hinv
            rw [hrec] at hpres
            cases res with
            | ok u => exact hpres
            | error e => exact hpres

/-! ### Witnesses: the theorems evaluated at the concrete states above -/

section Witnesses

attribute [local semireducible] Rat.mul Rat.add Rat.sub Rat.inv

/-- C1 witness: selling 3 of `SKU1` (price 10.00, VAT 0.20, stock 5)
succeeds, stock becomes 2 and one sale row is recorded. -/
theorem sell_product_success_witness :
    WF exDb ∧ exRow ∈ exDb.products ∧ (0 : ℤ) < 3 ∧ (3 : ℤ) ≤ exRow.quantity ∧
    InventoryManager.sell_product exDb exRow.sku 3 "T" = (.ok exReceipt, exDbAfter) := by
  refine ⟨by decide, by decide, by decide, by decide, ?_⟩
  rw [(sell_product_success exDb exRow 3 "T" (by decide) (by decide) (by decide)
    (by decide)).1]
  decide

/-- C2 witness: the three failure cases on the concrete store, each leaving
the state unchanged. -/
theorem sell_product_failure_cases_witness :
    InventoryManager.sell_product exDb "NOPE" 1 "T" = (.error .notFound, exDb) ∧
    InventoryManager.sell_product exDb "SKU1" 0 "T" = (.error .validation, exDb) ∧
    InventoryManager.sell_product exDb "SKU1" 9 "T" = (.error .stock, exDb) :=
  ⟨(sell_product_failure_cases exDb "NOPE" 1 "T" (rowToProduct exRow)).1 (by decide),
   (sell_product_failure_cases exDb "SKU1" 0 "T" (rowToProduct exRow)).2.1
     (by decide) (by decide),
   (sell_product_failure_cases exDb "SKU1" 9 "T" (rowToProduct exRow)).2.2
     (by decide) (by decide) (by decide)⟩

/-- C3 witness: the worked example's receipt carries
`total_ht = 30.00`, `total_vat = 6.00`, `total_ttc = 36.00`, each equal to
the step-rounded formula, and the same totals are stored in the sale row. -/
theorem sell_product_receipt_witness :
    exReceipt.sku = "SKU1" ∧ exReceipt.qty = 3 ∧
    exReceipt.total_ht = round2 ((rowToProduct exRow).unit_price_ht * ((3 : ℤ) : ℚ)) ∧
    exReceipt.total_vat = round2 (exReceipt.total_ht * (rowToProduct exRow).vat_rate) ∧
    exReceipt.total_ttc = round2 (exReceipt.total_ht + exReceipt.total_vat) ∧
    exDbAfter.sales = exDb.sales ++
      [{ id := exDb.nextSaleId, product_id := (rowToProduct exRow).id.getD 0,
         sku := "SKU1", quantity := 3,
         unit_price_ht := (rowToProduct exRow).unit_price_ht,
         vat_rate := (rowToProduct exRow).vat_rate,
         total_ht := exReceipt.total_ht, total_vat := exReceipt.total_vat,
         total_ttc := exReceipt.total_ttc, sold_at := "T" }] :=
  sell_product_receipt exDb "SKU1" 3 "T" (rowToProduct exRow) exReceipt exDbAfter
    (by decide) (by decide)

/-- C4 witness: inserting the fresh valid product `B2` then fetching it by
sku returns all its fields unchanged. -/
theorem insert_then_get_roundtrip_witness :
    (∀ r ∈ exDb.products, r.sku ≠ pB2.sku) ∧
    productChecksOk pB2.unit_price_ht pB2.vat_rate pB2.quantity ∧
    pB2.created_at ≠ "" ∧
    ((SQLiteRepository.insert_product exDb pB2 "T").1 = .ok exDb.nextProductId ∧
     SQLiteRepository.get_product_by_sku
         (SQLiteRepository.insert_product exDb pB2 "T").2 pB2.sku =
       some { id := some exDb.nextProductId, sku := pB2.sku, name := pB2.name,
              category := pB2.category, unit_price_ht := pB2.unit_price_ht,
              vat_rate := pB2.vat_rate, quantity := pB2.quantity,
              created_at := pB2.created_at }) :=
  ⟨by decide, by decide, by decide,
   insert_then_get_roundtrip exDb pB2 "T" (by decide) (by decide) (by decide)⟩

/-- C5 witness: inserting a clone of `SKU1` fails with DatabaseError,
leaves the state unchanged, and the original stays retrievable. -/
theorem insert_product_duplicate_sku_witness :
    SQLiteRepository.insert_product exDb pDup "T" = (.error .database, exDb) ∧
    SQLiteRepository.get_product_by_sku
        (SQLiteRepository.insert_product exDb pDup "T").2 pDup.sku =
      some (rowToProduct exRow) :=
  insert_product_duplicate_sku exDb pDup "T" exRow (by decide) (by decide) (by decide)

/-- C6 witness: adding sku `SKU1` again is rejected with ValidationError
before any insert; adding `B2` with VAT omitted stores the configured
default rate 0.20. -/
theorem add_product_witness :
    InventoryManager.add_product cfg0 exDb "SKU1" "X" "Y" 1 1 none "T" =
      (.error .validation, exDb) ∧
    InventoryManager.add_product cfg0 exDb "B2" "Bolt" "Hw" 3 7 none "T" =
      (.ok { sku := "B2", name := "Bolt", category := "Hw",
             unit_price_ht := 3, vat_rate := 1/5, quantity := 7,
             created_at := "T" },
       { products := [exRow,
           { id := 2, sku := "B2", name := "Bolt", category := "Hw",
             unit_price_ht := 3, vat_rate := 1/5, quantity := 7,
             created_at := "T" }],
         sales := [], nextProductId := 3, nextSaleId := 1 }) := by
  constructor
  · exact (add_product_duplicate_and_default_vat cfg0 exDb "SKU1" "X" "Y" 1 1 "T").1
      (by decide) (by decide) none
  · rw [(add_product_duplicate_and_default_vat cfg0 exDb "B2" "Bolt" "Hw" 3 7 "T").2
      (by decide) (by decide) (by decide) (by decide) (by decide) (by decide)
      (by decide) (by decide)]
    decide

/-- C7 witness: updating an unknown sku raises NotFoundError without side
effects; updating `SKU1` overwrites the mutable fields and preserves id and
created_at. -/
theorem update_product_witness :
    InventoryManager.update_product exDb "NOPE" "N" "C" 1 1 0 =
      (.error .notFound, exDb) ∧
    InventoryManager.update_product exDb "SKU1" "Gadget" "Tools2" 4 6 (1/2) =
      (.ok (), { products := [{ id := 1, sku := "SKU1", name := "Gadget",
                                category := "Tools2", unit_price_ht := 4,
                                vat_rate := 1/2, quantity := 6,
                                created_at := "D1" }],
                 sales := [], nextProductId := 2, nextSaleId := 1 }) := by
  constructor
  · exact (update_product_notfound_and_overwrite exDb "NOPE" "N" "C" 1 1 0
      (rowToProduct exRow)).1 (by decide)
  · rw [((update_product_notfound_and_overwrite exDb "SKU1" "Gadget" "Tools2" 4 6
      (1/2) (rowToProduct exRow)).2 (by decide) (by decide) (by decide) (by decide)
      (by decide) (by decide) (by decide)).1]
    decide

/-- C8 witness: deleting an unknown sku raises NotFoundError; deleting
`SKU1` while a sale references it fails with DatabaseError keeping both
tables; deleting it with no sales removes the row. -/
theorem delete_product_witness :
    InventoryManager.delete_product exDb "NOPE" = (.error .notFound, exDb) ∧
    InventoryManager.delete_product exDbAfter "SKU1" =
      (.error .database, exDbAfter) ∧
    InventoryManager.delete_product exDb "SKU1" =
      (.ok (), { products := [], sales := [], nextProductId := 2,
                 nextSaleId := 1 }) := by
  refine ⟨?_, ?_, ?_⟩
  · exact (delete_product_cases exDb "NOPE" (rowToProduct exRow)).1 (by decide)
  · exact (delete_product_cases exDbAfter "SKU1" (rowToProduct exRowAfter)).2.1
      (by decide) (by decide)
  · rw [(delete_product_cases exDb "SKU1" (rowToProduct exRow)).2.2
      (by decide) (by decide)]
    decide

/-- C9 witness: the dashboard aggregates of the one-sale store, and the
all-zero aggregates of the empty sales table. -/
theorem get_sales_stats_witness :
    SQLiteRepository.get_sales_stats exDbAfter =
      { nb_sales := 1, total_qty := 3, total_ht := 30, total_vat := 6,
        total_ttc := 36 } ∧
    SQLiteRepository.get_sales_stats exDb =
      { nb_sales := 0, total_qty := 0, total_ht := 0, total_vat := 0,
        total_ttc := 0 } := by
  constructor
  · rw [(get_sales_stats_sums exDbAfter).1]
    decide
  · exact (get_sales_stats_sums exDb).2 rfl

/-- C10 witness: a direct `record_sale` of 9 units against stock 5 aborts
with DatabaseError leaving both tables unchanged, and a committed
`record_sale` keeps all stored quantities non-negative. -/
theorem record_sale_abort_witness :
    SQLiteRepository.record_sale exDb 1 "SKU1" 9 10 (1/5) 90 18 108 "T" =
      (.error .database, exDb) ∧
    (∀ x ∈ (SQLiteRepository.record_sale exDb 1 "SKU1" 2 10 (1/5) 20 4 24
      "T").2.products, 0 ≤ x.quantity) := by
  constructor
  · exact (record_sale_abort_and_qty_invariant exDb 1 "SKU1" 9 10 (1/5) 90 18 108
      "T" (rowToProduct exRow) exRow).1 (by decide) (by decide) (by decide)
  · exact ((record_sale_abort_and_qty_invariant exDb 1 "SKU1" 2 10 (1/5) 20 4 24
      "T" (rowToProduct exRow) exRow).2 (by decide)).1

end Witnesses
